import Mathlib

/-!
Shallow embedding of the MailSmith backend server (src/server.py): the two
AI proxy endpoints, the review store, and the health endpoint, together with
theorems settling the specification claims about them.
-/

namespace MailSmith

/-- JSON values, as produced by Flask request parsing and jsonify. Objects are
modeled as key-value lists (Python dicts have unique keys, looked up in order). -/
inductive JVal where
  | null : JVal
  | bool : Bool → JVal
  | num : Int → JVal
  | str : String → JVal
  | arr : List JVal → JVal
  | obj : List (String × JVal) → JVal

/-- Association lookup on a JSON object's key-value list, modeling Python dict
membership and indexing for a given string key. -/
def jget (k : String) : List (String × JVal) → Option JVal
  | [] => none
  | (k', v) :: rest => if k = k' then some v else jget k rest

/-- The fixed upstream URL (src/server.py line 25). -/
def OPENROUTER_URL : String := "https://openrouter.ai/api/v1/chat/completions"

/-- The fixed model identifier (src/server.py line 26). -/
def MODEL : String := "arcee-ai/trinity-large-preview:free"

/-- The upstream HTTP request the proxy endpoints construct
(src/server.py lines 72-84 and 107-119). -/
structure UpstreamRequest where
  url : String
  authHeader : String
  contentType : String
  payloadModel : String
  payloadMessages : JVal
  reasoningEnabled : Bool

/-- Outcome of the upstream call when one is made: a timeout, any other
requests-level failure carrying its exception message (this also covers
non-2xx statuses surfaced by raise_for_status and JSON decode failures of
resp.json, both of which are RequestException subclasses), or a successful
JSON response with its upstream status code and payload. -/
inductive UpstreamOutcome where
  | timeout : UpstreamOutcome
  | reqError : String → UpstreamOutcome
  | success : Nat → JVal → UpstreamOutcome

/-- An HTTP response as returned to the client: status code and JSON body. -/
structure HttpResponse where
  status : Nat
  body : JVal

/-- Result of one proxy endpoint invocation: the HTTP response, whether the
upstream call was attempted, the upstream request when one was made, and the
log lines emitted. -/
structure ProxyResult where
  response : HttpResponse
  calledUpstream : Bool
  upstreamRequest : Option UpstreamRequest
  logs : List String

/-- A jsonify body of the form given by a single error message. -/
def errBody (msg : String) : JVal := .obj [("error", .str msg)]

/-- Embedding of api_generate (src/server.py lines 62-94). The request body is
modeled as a JSON object's key-value list, or none when request.get_json
yields no data. An empty object is falsy in Python, so the emptiness test
reproduces the `not data` check; the jget test reproduces `'messages' not in
data`. The key is read from configuration; Python `not OPENROUTER_API_KEY` is
the emptiness test on the string. -/
def api_generate (key : String) (body : Option (List (String × JVal)))
    (outcome : UpstreamOutcome) : ProxyResult :=
  if key = "" then
    { response := ⟨500, errBody "API key not configured on server"⟩,
      calledUpstream := false, upstreamRequest := none, logs := [] }
  else
    match body with
    | none =>
        { response := ⟨400, errBody "Missing messages in request body"⟩,
          calledUpstream := false, upstreamRequest := none, logs := [] }
    | some kvs =>
        if kvs.isEmpty then
          { response := ⟨400, errBody "Missing messages in request body"⟩,
            calledUpstream := false, upstreamRequest := none, logs := [] }
        else
          match jget "messages" kvs with
          | none =>
              { response := ⟨400, errBody "Missing messages in request body"⟩,
                calledUpstream := false, upstreamRequest := none, logs := [] }
          | some msgs =>
              let req : UpstreamRequest :=
                { url := OPENROUTER_URL, authHeader := "Bearer " ++ key,
                  contentType := "application/json", payloadModel := MODEL,
                  payloadMessages := msgs, reasoningEnabled := true }
              match outcome with
              | .timeout =>
                  { response := ⟨504, errBody "AI service timed out. Please try again."⟩,
                    calledUpstream := true, upstreamRequest := some req,
                    logs := ["Generate API timed out"] }
              | .reqError msg =>
                  { response := ⟨502, errBody ("AI service error: " ++ msg)⟩,
                    calledUpstream := true, upstreamRequest := some req,
                    logs := ["Generate API error: " ++ msg] }
              | .success code payload =>
                  { response := ⟨200, payload⟩,
                    calledUpstream := true, upstreamRequest := some req,
                    logs := ["Generate API success: " ++ toString code] }

/-- Embedding of api_enhance (src/server.py lines 97-129), translated from its
own lines; it differs from api_generate only in the wording of log lines. -/
def api_enhance (key : String) (body : Option (List (String × JVal)))
    (outcome : UpstreamOutcome) : ProxyResult :=
  if key = "" then
    { response := ⟨500, errBody "API key not configured on server"⟩,
      calledUpstream := false, upstreamRequest := none, logs := [] }
  else
    match body with
    | none =>
        { response := ⟨400, errBody "Missing messages in request body"⟩,
          calledUpstream := false, upstreamRequest := none, logs := [] }
    | some kvs =>
        if kvs.isEmpty then
          { response := ⟨400, errBody "Missing messages in request body"⟩,
            calledUpstream := false, upstreamRequest := none, logs := [] }
        else
          match jget "messages" kvs with
          | none =>
              { response := ⟨400, errBody "Missing messages in request body"⟩,
                calledUpstream := false, upstreamRequest := none, logs := [] }
          | some msgs =>
              let req : UpstreamRequest :=
                { url := OPENROUTER_URL, authHeader := "Bearer " ++ key,
                  contentType := "application/json", payloadModel := MODEL,
                  payloadMessages := msgs, reasoningEnabled := true }
              match outcome with
              | .timeout =>
                  { response := ⟨504, errBody "AI service timed out. Please try again."⟩,
                    calledUpstream := true, upstreamRequest := some req,
                    logs := ["Enhance API timed out"] }
              | .reqError msg =>
                  { response := ⟨502, errBody ("AI service error: " ++ msg)⟩,
                    calledUpstream := true, upstreamRequest := some req,
                    logs := ["Enhance API error: " ++ msg] }
              | .success code payload =>
                  { response := ⟨200, payload⟩,
                    calledUpstream := true, upstreamRequest := some req,
                    logs := ["Enhance API success: " ++ toString code] }

/-- Embedding of the health endpoint (src/server.py lines 161-167);
bool(OPENROUTER_API_KEY) is the non-emptiness test on the key. -/
def health (key : String) : HttpResponse :=
  ⟨200, .obj [("status", .str "ok"),
              ("api_key_configured", .bool (!(key == ""))),
              ("model", .str MODEL)]⟩

/-- A persisted review record (src/server.py lines 145-151). -/
structure Review where
  id : Int
  name : String
  rating : Int
  feedback : String
  timestamp : String

/-- A review submission body: the three optional client-supplied fields of
POST /api/reviews. An absent field and a JSON null both map to none (Python
dict.get returns None for both, and None is falsy). The rating carries the
value after Python int coercion, per the claim's hypothesis that the rating
coerces to an integer. -/
structure Submission where
  name : Option String
  rating : Option Int
  feedback : Option String

/-- State of the durable reviews.json storage: file absent, present but
unreadable (IOError on open or read), present but unparseable
(json.JSONDecodeError), present but holding bytes that are not valid UTF-8
(json.load then raises UnicodeDecodeError), or holding a parsed list of
reviews. -/
inductive Storage where
  | absent : Storage
  | unreadable : Storage
  | corrupt : Storage
  | badEncoding : Storage
  | ok : List Review → Storage

/-- Embedding of the private load helper (src/server.py lines 30-37). The
read returns the empty list when the file is missing, and the except clause
at lines 35-36 catches exactly json.JSONDecodeError and IOError, also
returning the empty list. A file whose bytes are not valid UTF-8 makes
json.load raise UnicodeDecodeError, which is neither caught class (it is a
ValueError but not a JSONDecodeError, and not an IOError), so that exception
propagates out of the helper; the propagating exception is modeled as
Except.error. -/
def load_reviews : Storage → Except Unit (List Review)
  | .absent => .ok []
  | .unreadable => .ok []
  | .corrupt => .ok []
  | .badEncoding => .error ()
  | .ok rs => .ok rs

/-- Embedding of the private save helper (src/server.py lines 40-42): a
whole-file rewrite replacing the stored state with the given list. -/
def save_reviews (rs : List Review) : Storage := .ok rs

/-- Whitespace characters stripped by Python str.strip for ASCII input. -/
def isPySpace (c : Char) : Bool :=
  c == ' ' || c == '\t' || c == '\n' || c == '\r' || c == '\x0b' || c == '\x0c'

/-- Python str.strip: remove leading and trailing whitespace. -/
def pyStrip (s : String) : String :=
  ⟨((s.data.dropWhile isPySpace).reverse.dropWhile isPySpace).reverse⟩

/-- Normalization of the name field (src/server.py line 147), Python
(data.get('name') or 'Anonymous').strip(): the or-default fires exactly
when the field is absent, null, or the empty string (the falsy strings),
and the strip applies after the default is chosen. -/
def normName (v : Option String) : String :=
  pyStrip (match v with
    | none => "Anonymous"
    | some s => if s = "" then "Anonymous" else s)

/-- Normalization of the rating field (src/server.py line 148), Python
max(1, min(5, int(data.get('rating', 5)))): dict.get defaults to 5 when the
key is absent, then the coerced integer is clamped. -/
def normRating (v : Option Int) : Int := max 1 (min 5 (v.getD 5))

/-- Normalization of the feedback field (src/server.py line 149), Python
(data.get('feedback') or '').strip(): the or-default, which fires on an
absent, null, or empty value, yields the empty string, which strips to
itself, so it coincides with defaulting to the empty string. -/
def normFeedback (v : Option String) : String := pyStrip (v.getD "")

/-- The Review record built by post_review (src/server.py lines 145-151); the
id and timestamp come from the wall clock, passed in as parameters. -/
def mkReview (d : Submission) (nowMs : Int) (nowStr : String) : Review :=
  { id := nowMs, name := normName d.name, rating := normRating d.rating,
    feedback := normFeedback d.feedback, timestamp := nowStr }

/-- Embedding of post_review (src/server.py lines 139-157). The body is none
when get_json yields no data or a falsy body (the `not data` check; an empty
object is falsy). Returns the HTTP status paired with the created review
when one is created, together with the storage state after the write; an
exception escaping the load helper propagates out of the handler before any
write (Except.error). -/
def post_review (data : Option Submission) (nowMs : Int) (nowStr : String)
    (st : Storage) : Except Unit ((Nat × Option Review) × Storage) :=
  match data with
  | none => .ok ((400, none), st)
  | some d =>
      let review := mkReview d nowMs nowStr
      match load_reviews st with
      | .error e => .error e
      | .ok reviews => .ok ((201, some review), save_reviews (review :: reviews))

/-- Embedding of get_reviews (src/server.py lines 133-136): HTTP 200 with the
loaded collection; an exception escaping the load helper propagates out of
the handler (Except.error, which Flask surfaces as an internal server
error, not a 200). -/
def get_reviews (st : Storage) : Except Unit (Nat × List Review) :=
  match load_reviews st with
  | .error e => .error e
  | .ok reviews => .ok (200, reviews)

/-- C1: for every review submission whose rating value coerces to an integer,
the rating stored in the resulting Review lies in [1, 5]; inputs below 1 are
stored as 1, inputs above 5 are stored as 5, and a missing rating defaults
to 5. -/
theorem C1_rating_clamped (d : Submission) (nowMs : Int) (nowStr : String) :
    (1 ≤ (mkReview d nowMs nowStr).rating ∧ (mkReview d nowMs nowStr).rating ≤ 5)
    ∧ (∀ n : Int, d.rating = some n → n < 1 → (mkReview d nowMs nowStr).rating = 1)
    ∧ (∀ n : Int, d.rating = some n → 5 < n → (mkReview d nowMs nowStr).rating = 5)
    ∧ (d.rating = none → (mkReview d nowMs nowStr).rating = 5) := by
  refine ⟨?_, ?_, ?_, ?_⟩
  · cases h : d.rating <;> simp [mkReview, normRating, h]
  · intro n hn hlt
    simp [mkReview, normRating, hn]
    omega
  · intro n hn hlt
    simp [mkReview, normRating, hn]
    omega
  · intro hn
    simp [mkReview, normRating, hn]

/-- C1 witness: rating input 0 is stored as 1 and rating input 99 as 5. -/
theorem C1_rating_clamped_witness :
    (mkReview ⟨none, some 0, none⟩ 0 "").rating = 1
    ∧ (mkReview ⟨none, some 99, none⟩ 0 "").rating = 5 :=
  ⟨(C1_rating_clamped ⟨none, some 0, none⟩ 0 "").2.1 0 rfl (by decide),
   (C1_rating_clamped ⟨none, some 99, none⟩ 0 "").2.2.1 99 rfl (by decide)⟩

/-- C2: when no credential is configured, both proxy endpoints return HTTP 500
with the generic message, and no upstream call is attempted, for every body
and every would-be upstream outcome. -/
theorem C2_no_credential_500 (body : Option (List (String × JVal)))
    (out : UpstreamOutcome) :
    (api_generate "" body out).response = ⟨500, errBody "API key not configured on server"⟩
    ∧ (api_generate "" body out).calledUpstream = false
    ∧ (api_enhance "" body out).response = ⟨500, errBody "API key not configured on server"⟩
    ∧ (api_enhance "" body out).calledUpstream = false :=
  ⟨rfl, rfl, rfl, rfl⟩

/-- C3 counterexample: with a credential configured and a body whose messages
field holds a number (not a sequence), the endpoints do NOT return 400 and DO
attempt the upstream call — the code checks only presence of the field, never
that it is a sequence. -/
theorem C3_counterexample :
    ((api_generate "k" (some [("messages", JVal.num 5)]) (.success 200 .null)).calledUpstream = true
      ∧ (api_generate "k" (some [("messages", JVal.num 5)]) (.success 200 .null)).response.status = 200)
    ∧ ((api_enhance "k" (some [("messages", JVal.num 5)]) (.success 200 .null)).calledUpstream = true
      ∧ (api_enhance "k" (some [("messages", JVal.num 5)]) (.success 200 .null)).response.status = 200) :=
  ⟨⟨rfl, rfl⟩, ⟨rfl, rfl⟩⟩

/-- C3 amended: with a credential configured, a request whose body is empty or
absent, or whose body lacks a messages field, gets HTTP 400 and no upstream
call; no check that messages is a sequence is performed. -/
theorem C3_missing_messages_400 (key : String) (body : Option (List (String × JVal)))
    (out : UpstreamOutcome) (hk : key ≠ "")
    (hb : body = none ∨ ∀ kvs, body = some kvs → jget "messages" kvs = none) :
    (api_generate key body out).response = ⟨400, errBody "Missing messages in request body"⟩
    ∧ (api_generate key body out).calledUpstream = false
    ∧ (api_enhance key body out).response = ⟨400, errBody "Missing messages in request body"⟩
    ∧ (api_enhance key body out).calledUpstream = false := by
  rcases hb with h | h
  · subst h
    simp [api_generate, api_enhance, hk]
  · cases body with
    | none => simp [api_generate, api_enhance, hk]
    | some kvs =>
        have hj := h kvs rfl
        cases he : kvs.isEmpty <;> simp [api_generate, api_enhance, hk, he, hj]

/-- C3 witness: an absent body with a configured credential yields 400 and no
upstream call on both endpoints. -/
theorem C3_missing_messages_400_witness :
    (api_generate "k" none .timeout).response = ⟨400, errBody "Missing messages in request body"⟩
    ∧ (api_generate "k" none .timeout).calledUpstream = false
    ∧ (api_enhance "k" none .timeout).response = ⟨400, errBody "Missing messages in request body"⟩
    ∧ (api_enhance "k" none .timeout).calledUpstream = false :=
  C3_missing_messages_400 "k" none .timeout (by decide) (Or.inl rfl)

/-- C4 counterexample: a whitespace-only name (here a single space) is truthy
in Python, so the Anonymous default does not fire and the stored name is the
empty string, not "Anonymous". -/
theorem C4_counterexample :
    (mkReview ⟨some " ", none, none⟩ 0 "").name = "" ∧ ("" : String) ≠ "Anonymous" :=
  ⟨rfl, by decide⟩

/-- C4 amended: when the name field is absent or the empty string the stored
name is "Anonymous"; any other provided name is stored with surrounding
whitespace stripped (so a whitespace-only name is stored as the empty
string). -/
theorem C4_name_normalization (d : Submission) (ms : Int) (ts : String) :
    ((d.name = none ∨ d.name = some "") → (mkReview d ms ts).name = "Anonymous")
    ∧ (∀ s, d.name = some s → s ≠ "" → (mkReview d ms ts).name = pyStrip s) := by
  constructor
  · rintro (h | h) <;> simp [mkReview, normName, h] <;> rfl
  · intro s hs hne
    simp [mkReview, normName, hs, hne]

/-- C4 witness: an absent name is stored as "Anonymous", and a padded name is
stored stripped. -/
theorem C4_name_normalization_witness :
    (mkReview ⟨none, none, none⟩ 0 "").name = "Anonymous"
    ∧ (mkReview ⟨some "  Bea  ", none, none⟩ 0 "").name = pyStrip "  Bea  " :=
  ⟨(C4_name_normalization ⟨none, none, none⟩ 0 "").1 (Or.inl rfl),
   (C4_name_normalization ⟨some "  Bea  ", none, none⟩ 0 "").2 "  Bea  " rfl (by decide)⟩

/-- C5: starting from any stored collection the read path can load,
submitting reviews A then B then C makes a subsequent read return C, B, A
followed by the previously stored reviews. -/
theorem C5_newest_first (a b c : Submission) (ma mb mc : Int)
    (ta tb tc : String) (st : Storage) (prior : List Review)
    (h : load_reviews st = Except.ok prior) :
    post_review (some a) ma ta st
      = Except.ok ((201, some (mkReview a ma ta)),
          Storage.ok (mkReview a ma ta :: prior))
    ∧ post_review (some b) mb tb (Storage.ok (mkReview a ma ta :: prior))
      = Except.ok ((201, some (mkReview b mb tb)),
          Storage.ok (mkReview b mb tb :: mkReview a ma ta :: prior))
    ∧ post_review (some c) mc tc
        (Storage.ok (mkReview b mb tb :: mkReview a ma ta :: prior))
      = Except.ok ((201, some (mkReview c mc tc)),
          Storage.ok (mkReview c mc tc :: mkReview b mb tb :: mkReview a ma ta :: prior))
    ∧ get_reviews
        (Storage.ok (mkReview c mc tc :: mkReview b mb tb :: mkReview a ma ta :: prior))
      = Except.ok (200, [mkReview c mc tc, mkReview b mb tb, mkReview a ma ta]
          ++ prior) := by
  refine ⟨?_, rfl, rfl, rfl⟩
  simp [post_review, h, save_reviews]

/-- C5 witness: three concrete submissions on absent storage produce the
chain of states ending in the newest-first order. -/
theorem C5_newest_first_witness :
    post_review (some ⟨none, none, none⟩) 1 "t1" Storage.absent
      = Except.ok ((201, some (mkReview ⟨none, none, none⟩ 1 "t1")),
          Storage.ok [mkReview ⟨none, none, none⟩ 1 "t1"]) :=
  (C5_newest_first ⟨none, none, none⟩ ⟨none, none, none⟩ ⟨none, none, none⟩
    1 2 3 "t1" "t2" "t3" Storage.absent [] rfl).1

/-- C6: appending a valid submission to a readable stored collection yields
exactly the new Review at index 0 followed by the prior collection as its
tail, leaving every prior review unchanged and in order. -/
theorem C6_append_frame (d : Submission) (ms : Int) (ts : String)
    (prior : List Review) :
    post_review (some d) ms ts (Storage.ok prior)
      = Except.ok ((201, some (mkReview d ms ts)),
          Storage.ok (mkReview d ms ts :: prior)) :=
  rfl

/-- C7 counterexample: a stored file whose bytes are not valid UTF-8 makes
json.load raise UnicodeDecodeError, which the except clause at src/server.py
lines 35-36 does not catch, so the read raises instead of producing the
HTTP 200 response the claim promises for every storage state. -/
theorem C7_counterexample :
    get_reviews Storage.badEncoding = Except.error ()
    ∧ get_reviews Storage.badEncoding ≠ Except.ok (200, []) := by
  refine ⟨rfl, ?_⟩
  intro hh
  simp [get_reviews, load_reviews] at hh

/-- C7 amended: the reviews read returns HTTP 200 with a loaded collection
for every storage state except an invalid-UTF-8 file — in particular absent,
unparseable (JSONDecodeError), and unreadable (IOError) storage all yield
200 with the empty collection — but on a file that is not valid UTF-8 the
read raises an uncaught UnicodeDecodeError instead of returning 200. -/
theorem C7_list_permissive_read :
    (∀ st, st ≠ Storage.badEncoding → ∃ rs, get_reviews st = Except.ok (200, rs))
    ∧ get_reviews Storage.absent = Except.ok (200, [])
    ∧ get_reviews Storage.corrupt = Except.ok (200, [])
    ∧ get_reviews Storage.unreadable = Except.ok (200, [])
    ∧ get_reviews Storage.badEncoding = Except.error () := by
  refine ⟨?_, rfl, rfl, rfl, rfl⟩
  intro st hst
  cases st with
  | absent => exact ⟨[], rfl⟩
  | unreadable => exact ⟨[], rfl⟩
  | corrupt => exact ⟨[], rfl⟩
  | badEncoding => exact absurd rfl hst
  | ok rs => exact ⟨rs, rfl⟩

/-- C7 witness: absent storage is readable and yields a 200 response. -/
theorem C7_list_permissive_read_witness :
    ∃ rs, get_reviews Storage.absent = Except.ok (200, rs) :=
  C7_list_permissive_read.1 Storage.absent (fun hh => Storage.noConfusion hh)

/-- C8: for every credential configuration, request body, and upstream
outcome, the generate and enhance endpoints produce the same status code and
response body. -/
theorem C8_generate_enhance_equivalent (key : String)
    (body : Option (List (String × JVal))) (out : UpstreamOutcome) :
    (api_generate key body out).response = (api_enhance key body out).response := by
  by_cases hk : key = ""
  · simp [api_generate, api_enhance, hk]
  · cases body with
    | none => simp [api_generate, api_enhance, hk]
    | some kvs =>
        cases he : kvs.isEmpty <;>
          cases hj : jget "messages" kvs <;>
            cases out <;> simp [api_generate, api_enhance, hk, he, hj]

/-- C9: noninterference of the credential with all client-visible output —
for any two credentials that agree on being configured, both proxy endpoints
and the health endpoint produce identical responses and identical log lines,
so the credential value can never appear in a response body or error
message. -/
theorem C9_credential_not_in_output (k1 k2 : String) (h : k1 = "" ↔ k2 = "")
    (body : Option (List (String × JVal))) (out : UpstreamOutcome) :
    (api_generate k1 body out).response = (api_generate k2 body out).response
    ∧ (api_generate k1 body out).logs = (api_generate k2 body out).logs
    ∧ (api_enhance k1 body out).response = (api_enhance k2 body out).response
    ∧ (api_enhance k1 body out).logs = (api_enhance k2 body out).logs
    ∧ health k1 = health k2 := by
  by_cases h1 : k1 = ""
  · have h2 : k2 = "" := h.mp h1
    subst h1
    subst h2
    exact ⟨rfl, rfl, rfl, rfl, rfl⟩
  · have h2 : k2 ≠ "" := fun hh => h1 (h.mpr hh)
    have b1 : (k1 == "") = false := beq_eq_false_iff_ne.mpr h1
    have b2 : (k2 == "") = false := beq_eq_false_iff_ne.mpr h2
    refine ⟨?_, ?_, ?_, ?_, ?_⟩
    all_goals
      first
      | simp [health, b1, b2]
      | (cases body with
         | none => simp [api_generate, api_enhance, h1, h2]
         | some kvs =>
             cases he : kvs.isEmpty <;>
               cases hj : jget "messages" kvs <;>
                 cases out <;> simp [api_generate, api_enhance, h1, h2, he, hj])

/-- C9 witness: two distinct configured credentials produce identical
responses and logs at a concrete request. -/
theorem C9_credential_not_in_output_witness :
    (api_generate "key-one" none .timeout).response
      = (api_generate "key-two" none .timeout).response
    ∧ (api_generate "key-one" none .timeout).logs
      = (api_generate "key-two" none .timeout).logs
    ∧ (api_enhance "key-one" none .timeout).response
      = (api_enhance "key-two" none .timeout).response
    ∧ (api_enhance "key-one" none .timeout).logs
      = (api_enhance "key-two" none .timeout).logs
    ∧ health "key-one" = health "key-two" :=
  C9_credential_not_in_output "key-one" "key-two" (by decide) none .timeout

/-- C10: the credential check precedes body validation — with no credential
configured, both proxy endpoints return 500 (never the 400 validation
response) for every request body, including an absent one, and never call
upstream. -/
theorem C10_credential_check_precedes_validation
    (body : Option (List (String × JVal))) (out : UpstreamOutcome) :
    (api_generate "" body out).response.status = 500
    ∧ (api_generate "" body out).response.status ≠ 400
    ∧ (api_generate "" body out).calledUpstream = false
    ∧ (api_enhance "" body out).response.status = 500
    ∧ (api_enhance "" body out).response.status ≠ 400
    ∧ (api_enhance "" body out).calledUpstream = false := by
  refine ⟨rfl, ?_, rfl, rfl, ?_, rfl⟩ <;>
    · show (500 : Nat) ≠ 400
      decide

end MailSmith
